import Mathlib

/-!
Verification development for the VideoCutterApp repository.

The Python source under `app/` is shallowly embedded below:
pure command/filter construction (`ffmpeg_worker.py`) becomes pure Lean
functions over `ℚ` (Python floats are modelled exactly by rationals at the
inputs the theorems evaluate; every comparison the source performs is exact
at those inputs), filter expressions become a small AST instead of formatted
strings (the numeric text formatting `f"{x:.3f}"` carries no information the
properties depend on, so the AST keeps the raw rational), and the effectful
orchestration (`segment_worker.py`, `_read_output`) becomes explicit state
passing over an abstract environment that decides each subprocess outcome.
-/

namespace VideoCutter

/-- Python `int(x)` truncates toward zero: floor for nonnegative values,
ceiling for negative ones. -/
def pyInt (q : ℚ) : ℤ := if 0 ≤ q then ⌊q⌋ else ⌈q⌉

/-- One keyed sub-parameter of the `eq=` adjustment filter, as accumulated in
`eq_params` by `FFmpegWorker._build_color_filters`. -/
inductive EqParam
  | brightness (v : ℚ)
  | contrast (v : ℚ)
  | saturation (v : ℚ)
  | gamma (v : ℚ)
  deriving DecidableEq

/-- Video filter expressions emitted by `FFmpegWorker`, as an AST.
`trimSetpts s d` stands for `trim=start=s:duration=d,setpts=PTS-STARTPTS`;
`setptsDiv v` for `setpts=PTS/v`; `custom s` is a caller-supplied filter
string appended verbatim by `build_command`. -/
inductive VFilter
  | trimSetpts (s d : ℚ)
  | setptsDiv (speed : ℚ)
  | eqAdjust (ps : List EqParam)
  | unsharp (amount : ℚ)
  | boxblur (radius : ℚ)
  | colorchannelmixer (rr rg rb gr gg gb br bg bb : ℚ)
  | crop (w h x y : ℤ)
  | custom (s : String)
  deriving DecidableEq

/-- Audio filter expressions emitted by `FFmpegWorker`.
`atrimSetpts s d` stands for `atrim=start=s:duration=d,asetpts=PTS-STARTPTS`;
`atempo r` for `atempo=r`. -/
inductive AFilter
  | atrimSetpts (s d : ℚ)
  | atempo (r : ℚ)
  deriving DecidableEq

/-- One ffmpeg command-line token. `num q` is a numeric argument the source
renders with `str(float)`; `numInt n` one rendered with `str(int)`; `vf` /
`af` are the comma-joined filter-chain value arguments. -/
inductive Tok
  | arg (s : String)
  | num (q : ℚ)
  | numInt (n : ℤ)
  | vf (fs : List VFilter)
  | af (fs : List AFilter)
  deriving DecidableEq

/-- The `while remaining > 2.0` loop of `_build_speed_filters` followed by its
trailing `if remaining > 1.0` stage.  The loop strictly halves `remaining`
each pass, so the `fuel` argument (called with 64) never runs out for any
speed below `2 ^ 65`; the fuel-exhausted base case performs the same
post-loop check the source reaches on a normal exit. -/
def atempoUp : ℕ → ℚ → List ℚ
  | 0, r => if 1 < r then [r] else []
  | n + 1, r => if 2 < r then 2 :: atempoUp n (r / 2) else if 1 < r then [r] else []

/-- The `while remaining < 0.5` loop of `_build_speed_filters` followed by its
trailing `if remaining < 1.0` stage; each pass divides `remaining` by `0.5`. -/
def atempoDown : ℕ → ℚ → List ℚ
  | 0, r => if r < 1 then [r] else []
  | n + 1, r =>
    if r < 1 / 2 then (1 / 2) :: atempoDown n (r / (1 / 2)) else if r < 1 then [r] else []

/-- The audio-tempo stage ratios emitted by `FFmpegWorker._build_speed_filters`
for a given speed: nothing inside the 0.01 dead band around 1.0, a single
stage inside the atempo band [0.5, 2.0], and the multiplicative decomposition
loops outside it. -/
def atempoStages (speed : ℚ) : List ℚ :=
  if |speed - 1| < 1 / 100 then []
  else if 1 / 2 ≤ speed ∧ speed ≤ 2 then [speed]
  else if 2 < speed then atempoUp 64 speed
  else if speed < 1 / 2 then atempoDown 64 speed
  else []

/-- `FFmpegWorker._build_speed_filters`: returns the (video, audio) filter
lists for a speed change; empty when the speed is within 0.01 of 1.0. -/
def build_speed_filters (speed : ℚ) : List VFilter × List AFilter :=
  if |speed - 1| < 1 / 100 then ([], [])
  else ([VFilter.setptsDiv speed], (atempoStages speed).map AFilter.atempo)

/-- `FFmpegWorker._build_aspect_ratio_filters`: center-crop toward a 16:9 or
9:16 target; any other aspect-ratio string, or a source aspect within 0.01 of
the target, emits nothing.  `int(...)` is `pyInt`, `//` is `Int.fdiv`. -/
def build_aspect_ratio_filters (aspect_ratio : String) (input_width input_height : ℤ) :
    List VFilter :=
  if aspect_ratio = "16:9" ∨ aspect_ratio = "9:16" then
    let target_aspect : ℚ := if aspect_ratio = "16:9" then 16 / 9 else 9 / 16
    let current_aspect : ℚ :=
      if 0 < input_height then (input_width : ℚ) / (input_height : ℚ) else 1
    if |current_aspect - target_aspect| < 1 / 100 then []
    else if target_aspect < current_aspect then
      let new_height := input_height
      let new_width := pyInt ((new_height : ℚ) * target_aspect)
      let x_offset := (input_width - new_width).fdiv 2
      [VFilter.crop new_width new_height x_offset 0]
    else
      let new_width := input_width
      let new_height := pyInt ((new_width : ℚ) / target_aspect)
      let y_offset := (input_height - new_height).fdiv 2
      [VFilter.crop new_width new_height 0 y_offset]
  else []

/-- `FFmpegWorker._build_color_filters`: an `eq=` filter collecting the
brightness / contrast / saturation / shadows-as-gamma sub-parameters that
deviate from neutral by at least 0.01, then a mutually exclusive
unsharp-or-boxblur sharpness filter, then a `colorchannelmixer` built from
temperature and tint with all matrix entries clamped to [0, 2]. -/
def build_color_filters
    (brightness contrast saturation sharpness shadows temperature tint : ℚ) :
    List VFilter :=
  let eq_params : List EqParam :=
    (if 1 / 100 ≤ |brightness| then [EqParam.brightness brightness] else []) ++
    (if 1 / 100 ≤ |contrast - 1| then [EqParam.contrast contrast] else []) ++
    (if 1 / 100 ≤ |saturation - 1| then [EqParam.saturation saturation] else []) ++
    (if 1 / 100 ≤ |shadows| then [EqParam.gamma (1 + shadows * (1 / 2))] else [])
  let eq_filters : List VFilter :=
    if eq_params = [] then [] else [VFilter.eqAdjust eq_params]
  let sharp_filters : List VFilter :=
    if 1 / 100 ≤ |sharpness| then
      if 0 < sharpness then [VFilter.unsharp (sharpness * 2)]
      else [VFilter.boxblur (|sharpness| * 3)]
    else []
  let mixer_filters : List VFilter :=
    if 1 / 100 ≤ |temperature| ∨ 1 / 100 ≤ |tint| then
      let temp_factor := temperature / 100
      let tint_factor := tint / 100
      let temp_strength := max 0 (min (3 / 10) (|temp_factor| * (3 / 10)))
      let rr0 : ℚ :=
        if 0 < temp_factor then 1 + temp_strength
        else if temp_factor < 0 then 1 - temp_strength else 1
      let bb0 : ℚ :=
        if 0 < temp_factor then 1 - temp_strength
        else if temp_factor < 0 then 1 + temp_strength else 1
      let tint_strength := max 0 (min (3 / 10) (|tint_factor| * (3 / 10)))
      let gg0 : ℚ :=
        if 0 < tint_factor then 1 + tint_strength
        else if tint_factor < 0 then 1 - tint_strength else 1
      let rr1 : ℚ := if tint_factor < 0 then max 1 (rr0 + tint_strength * (1 / 2)) else rr0
      let bb1 : ℚ := if tint_factor < 0 then max 1 (bb0 + tint_strength * (1 / 2)) else bb0
      let clamp : ℚ → ℚ := fun x => max 0 (min 2 x)
      if 1 / 100 ≤ |temp_factor| ∨ 1 / 100 ≤ |tint_factor| then
        [VFilter.colorchannelmixer (clamp rr1) (clamp 0) (clamp 0) (clamp 0)
          (clamp gg0) (clamp 0) (clamp 0) (clamp 0) (clamp bb1)]
      else []
    else []
  eq_filters ++ sharp_filters ++ mixer_filters

/-- Encoding profile record: `build_command` reads these keys with the
defaults shown (`encoding_profile.get("codec", "libx264")` etc.). -/
structure EncodingProfile where
  codec : String := "libx264"
  preset : String := "medium"
  crf : ℤ := 20
  audio_codec : String := "aac"
  audio_bitrate : String := "192k"
  deriving DecidableEq

/-- The `video_filters_list` assembled inside `FFmpegWorker.build_command`:
trim-and-reset plus speed filters when the speed deviates from 1.0 by at
least 0.01, then color filters, then the aspect-ratio crop (gated by
`build_command`'s own recomputation of the target aspect), then
caller-supplied custom filter strings. -/
def videoFiltersList (filters : List String) (speed : ℚ) (aspect_ratio : String)
    (input_width input_height : ℤ)
    (brightness contrast saturation sharpness shadows temperature tint : ℚ)
    (input_duration : ℚ) : List VFilter :=
  let base : List VFilter :=
    if 1 / 100 ≤ |speed - 1| then
      [VFilter.trimSetpts 0 input_duration] ++ (build_speed_filters speed).1
    else []
  let color_filters :=
    build_color_filters brightness contrast saturation sharpness shadows temperature tint
  let aspect_filters : List VFilter :=
    if aspect_ratio ≠ "" then
      let current_aspect : ℚ :=
        if 0 < input_height then (input_width : ℚ) / (input_height : ℚ) else 1
      let target_aspect : ℚ :=
        if aspect_ratio = "16:9" then 16 / 9
        else if aspect_ratio = "9:16" then 9 / 16
        else current_aspect
      if 1 / 100 ≤ |current_aspect - target_aspect| then
        build_aspect_ratio_filters aspect_ratio input_width input_height
      else []
    else []
  base ++ color_filters ++ aspect_filters ++ filters.map VFilter.custom

/-- The `audio_filters_list` assembled inside `FFmpegWorker.build_command`:
audio trim-and-reset plus tempo stages when the speed deviates from 1.0 by at
least 0.01, otherwise empty. -/
def audioFiltersList (speed : ℚ) (input_duration : ℚ) : List AFilter :=
  if 1 / 100 ≤ |speed - 1| then
    [AFilter.atrimSetpts 0 input_duration] ++ (build_speed_filters speed).2
  else []

/-- `FFmpegWorker.build_command`: the full argument vector.  The `-t` cap is
`input_duration + 0.5` exactly when the speed deviates from 1.0 by at least
0.01, and `-shortest`, `-vf`, `-af` blocks appear under the source's
conditions. -/
def build_command (ffmpeg_path input_file output_file : String)
    (start_time end_time : ℚ) (filters : List String)
    (encoding_profile : Option EncodingProfile) (speed : ℚ) (aspect_ratio : String)
    (input_width input_height : ℤ)
    (brightness contrast saturation sharpness shadows temperature tint : ℚ) :
    List Tok :=
  let input_duration := end_time - start_time
  let vfl := videoFiltersList filters speed aspect_ratio input_width input_height
    brightness contrast saturation sharpness shadows temperature tint input_duration
  let afl := audioFiltersList speed input_duration
  [Tok.arg ffmpeg_path, Tok.arg "-y", Tok.arg "-i", Tok.arg input_file,
    Tok.arg "-ss", Tok.num start_time] ++
  (if 1 / 100 ≤ |speed - 1| then [Tok.arg "-t", Tok.num (input_duration + 1 / 2)]
    else [Tok.arg "-t", Tok.num input_duration]) ++
  [Tok.arg "-avoid_negative_ts", Tok.arg "make_zero", Tok.arg "-async", Tok.arg "1"] ++
  (if 1 / 100 ≤ |speed - 1| then [Tok.arg "-shortest"] else []) ++
  (if vfl = [] then [] else [Tok.arg "-vf", Tok.vf vfl]) ++
  (if afl = [] then [] else [Tok.arg "-af", Tok.af afl]) ++
  (match encoding_profile with
    | some p => [Tok.arg "-c:v", Tok.arg p.codec, Tok.arg "-preset", Tok.arg p.preset,
        Tok.arg "-crf", Tok.numInt p.crf, Tok.arg "-c:a", Tok.arg p.audio_codec,
        Tok.arg "-b:a", Tok.arg p.audio_bitrate]
    | none => []) ++
  [Tok.arg "-pix_fmt", Tok.arg "yuv420p", Tok.arg "-movflags", Tok.arg "+faststart",
    Tok.arg output_file]

/-- Predicate: this video filter is one of the color-related expressions
(`eq`, `unsharp`, `boxblur`, `colorchannelmixer`). -/
def isColorFilter : VFilter → Bool
  | VFilter.eqAdjust _ => true
  | VFilter.unsharp _ => true
  | VFilter.boxblur _ => true
  | VFilter.colorchannelmixer _ _ _ _ _ _ _ _ _ => true
  | _ => false

/-- Predicate: this video filter is a crop filter. -/
def isCropFilter : VFilter → Bool
  | VFilter.crop _ _ _ _ => true
  | _ => false

/-- Predicate: this audio filter is a tempo stage. -/
def isAtempo : AFilter → Bool
  | AFilter.atempo _ => true
  | _ => false

/-- Does a command contain a `-vf` filter-chain value token? -/
def cmdHasVf (cmd : List Tok) : Bool :=
  cmd.any fun t => match t with | Tok.vf _ => true | _ => false

/-- Does a command contain an `-af` filter-chain value token? -/
def cmdHasAf (cmd : List Tok) : Bool :=
  cmd.any fun t => match t with | Tok.af _ => true | _ => false

/-- Does a command contain a crop filter inside some `-vf` chain? -/
def cmdHasCrop (cmd : List Tok) : Bool :=
  cmd.any fun t => match t with | Tok.vf fs => fs.any isCropFilter | _ => false

/-- Is `pat` a character-for-character initial segment of the second list?
Used to model Python's substring test `pat in s`. -/
def subAt : List Char → List Char → Bool
  | [], _ => true
  | _ :: _, [] => false
  | p :: ps, c :: cs => p == c && subAt ps cs

/-- Does the character list contain `pat` as a contiguous run?  Models
Python's `pat in s`. -/
def hasSub (pat : List Char) : List Char → Bool
  | [] => pat.isEmpty
  | c :: cs => subAt pat (c :: cs) || hasSub pat cs

/-- Python's `str.lower` on one character (ASCII case fold suffices for the
keywords scanned). -/
def lowerChar (c : Char) : Char := c.toLower

/-- The diagnostic-line test in `FFmpegWorker._read_output`:
`'error' in line_lower or 'failed' in line_lower or 'invalid' in line_lower`
on the lowercased line. -/
def isDiagnosticLine (line : String) : Bool :=
  let lower := line.data.map lowerChar
  hasSub "error".data lower || hasSub "failed".data lower || hasSub "invalid".data lower

/-- The `error_lines` list accumulated by `FFmpegWorker._read_output` over
one job's output stream: every line matching the diagnostic test is
appended, with no eviction. -/
def read_output_error_lines (lines : List String) : List String :=
  lines.filter isDiagnosticLine

/-- The post-mortem slice `error_lines[-5:]` that `_read_output` logs after a
nonzero exit code: the last at most five retained lines. -/
def reported_error_tail (lines : List String) : List String :=
  let e := read_output_error_lines lines
  e.drop (e.length - 5)

/-- One JSON scalar as stored in a segment's dictionary (`models.py` writes
only strings, numbers and booleans into it; Python's `json` round-trips all
three exactly). -/
inductive JValue
  | s (v : String)
  | q (v : ℚ)
  | b (v : Bool)
  deriving DecidableEq

/-- The dictionary produced by `Segment.to_dict`: an ordered key-value
record. -/
abbrev SegDict := List (String × JValue)

/-- Python `dict.get(key)`: the value under the first matching key, if any. -/
def dictGet (d : SegDict) (k : String) : Option JValue :=
  (d.find? fun kv => kv.1 == k).map fun kv => kv.2

/-- `data.get(key, default)` read as a number. -/
def getQ (d : SegDict) (k : String) (dflt : ℚ) : ℚ :=
  match dictGet d k with
  | some (JValue.q v) => v
  | _ => dflt

/-- `data.get(key, default)` read as a string. -/
def getS (d : SegDict) (k : String) (dflt : String) : String :=
  match dictGet d k with
  | some (JValue.s v) => v
  | _ => dflt

/-- `data.get(key, default)` read as a boolean. -/
def getB (d : SegDict) (k : String) (dflt : Bool) : Bool :=
  match dictGet d k with
  | some (JValue.b v) => v
  | _ => dflt

/-- The `Segment` dataclass of `models.py`, with its field defaults. -/
structure Segment where
  start_time : ℚ := 0
  end_time : ℚ := 0
  name : String := ""
  enabled : Bool := true
  encoding_profile : String := "balanced"
  speed : ℚ := 1
  aspect_ratio : String := "16:9"
  brightness : ℚ := 0
  contrast : ℚ := 1
  saturation : ℚ := 1
  sharpness : ℚ := 0
  shadows : ℚ := 0
  temperature : ℚ := 0
  tint : ℚ := 0
  deriving DecidableEq

/-- `Segment.to_dict`: the JSON dictionary, keys in source order. -/
def Segment.to_dict (s : Segment) : SegDict :=
  [("start_time", JValue.q s.start_time),
   ("end_time", JValue.q s.end_time),
   ("name", JValue.s s.name),
   ("enabled", JValue.b s.enabled),
   ("encoding_profile", JValue.s s.encoding_profile),
   ("speed", JValue.q s.speed),
   ("aspect_ratio", JValue.s s.aspect_ratio),
   ("brightness", JValue.q s.brightness),
   ("contrast", JValue.q s.contrast),
   ("saturation", JValue.q s.saturation),
   ("sharpness", JValue.q s.sharpness),
   ("shadows", JValue.q s.shadows),
   ("temperature", JValue.q s.temperature),
   ("tint", JValue.q s.tint)]

/-- `Segment.from_dict`: every field read with `data.get(key, default)`,
defaults as in the source. -/
def Segment.from_dict (d : SegDict) : Segment :=
  { start_time := getQ d "start_time" 0
    end_time := getQ d "end_time" 0
    name := getS d "name" ""
    enabled := getB d "enabled" true
    encoding_profile := getS d "encoding_profile" "balanced"
    speed := getQ d "speed" 1
    aspect_ratio := getS d "aspect_ratio" "16:9"
    brightness := getQ d "brightness" 0
    contrast := getQ d "contrast" 1
    saturation := getQ d "saturation" 1
    sharpness := getQ d "sharpness" 0
    shadows := getQ d "shadows" 0
    temperature := getQ d "temperature" 0
    tint := getQ d "tint" 0 }

/-- The `Project` dataclass of `models.py` (paths kept as their string
form; `Path(str(p))` round-trips the string unchanged). -/
structure Project where
  input_file : String
  output_dir : String
  segments : List Segment := []
  export_mode : String := "split"
  export_method : String := "fast"
  project_name : String := "Untitled Project"
  deriving DecidableEq

/-- The JSON record `Project.save_to_file` writes.  `json.dump`/`json.load`
is a faithful bijection on this record (finite floats, strings, booleans), so
the file content is modelled by the record itself. -/
structure ProjectData where
  project_name : String
  input_file : String
  output_dir : String
  export_mode : String
  export_method : String
  segments : List SegDict
  deriving DecidableEq

/-- `Project.save_to_file`: serializes the project (the source returns a
success flag and fails only when the file cannot be written, which the model
abstracts away). -/
def Project.save_to_file (p : Project) : ProjectData :=
  { project_name := p.project_name
    input_file := p.input_file
    output_dir := p.output_dir
    export_mode := p.export_mode
    export_method := p.export_method
    segments := p.segments.map Segment.to_dict }

/-- `Project.load_from_file`: rebuilds a project from the JSON record; the
source's `except` branch (returning `None`) fires only on I/O or parse
errors, which cannot occur on a record `save_to_file` produced. -/
def Project.load_from_file (d : ProjectData) : Option Project :=
  some
    { input_file := d.input_file
      output_dir := d.output_dir
      segments := d.segments.map Segment.from_dict
      export_mode := d.export_mode
      export_method := d.export_method
      project_name := d.project_name }

/-- The data an output filename of the split exporters is derived from:
1-based index plus either the sanitized segment name or the time-range
fallback (the `f"{i:03d}"`/`.2f` text formatting carries exactly this data). -/
structure OutFile where
  index : ℕ
  tag : String ⊕ (ℚ × ℚ)
  deriving DecidableEq

/-- The name sanitizer of `SegmentWorker.export_segments_fast`:
keep alphanumerics, space, hyphen, underscore, then strip. -/
def sanitize_name (n : String) : String :=
  (String.mk (n.data.filter fun c => c.isAlphanum || c == ' ' || c == '-' || c == '_')).trim

/-- The filename-derivation data for one exported segment. -/
def output_filename_tag (index : ℕ) (s : Segment) : OutFile :=
  if s.name ≠ "" then { index := index + 1, tag := Sum.inl (sanitize_name s.name) }
  else { index := index + 1, tag := Sum.inr (s.start_time, s.end_time) }

/-- `SegmentWorker.export_segments_fast` (and `export_segments_accurate`,
which filters and counts identically): only `enabled` segments are submitted
as jobs; `env i` decides whether job `i` (an index into the enabled list)
produces its output file.  Returns the produced output files and the
reported `total`.  The bounded thread pool affects only completion order,
which the result sets do not depend on. -/
def export_segments_fast (env : ℕ → Bool) (segments : List Segment) :
    List OutFile × ℕ :=
  let enabled_segments := segments.filter fun s => s.enabled
  let total := enabled_segments.length
  let outputs := enabled_segments.enum.filterMap fun p =>
    if env p.1 then some (output_filename_tag p.1 p.2) else none
  (outputs, total)

/-- A file inside the per-call temporary working directory of the concat
exporters: `segment_{i:03d}.mp4` or `concat_list.txt`. -/
inductive TempFile
  | segment (i : ℕ)
  | concatList
  deriving DecidableEq

/-- Abstract environment deciding the outcome of each step of a concat
export: whether the cancellation flag is observed set before segment `i`,
whether segment `i`'s extraction subprocess succeeds and leaves its file,
and whether the final concatenation succeeds. -/
structure ConcatEnv where
  cancelledBefore : ℕ → Bool
  segOk : ℕ → Bool
  concatOk : Bool

/-- The per-segment loop of the `try:` block shared by
`SegmentWorker._export_concat_fast` and `_export_concat_accurate` (the two
differ only in how the per-segment command is built, which does not affect
the temp-file lifecycle): each exit — cancellation, segment failure, or
falling through to the concat stage — returns the success flag together with
the temp files existing in the working directory at that point. -/
def concat_body_go (env : ConcatEnv) : ℕ → List Segment → List TempFile →
    Bool × List TempFile
  | _, [], files =>
    let files2 := files ++ [TempFile.concatList]
    (env.concatOk, files2)
  | i, _ :: rest, files =>
    if env.cancelledBefore i then (false, files)
    else if env.segOk i then
      concat_body_go env (i + 1) rest (files ++ [TempFile.segment i])
    else (false, files)

/-- The whole `try:` block of a concat export, starting from an empty fresh
temp directory. -/
def concat_body (env : ConcatEnv) (segments : List Segment) : Bool × List TempFile :=
  concat_body_go env 0 segments []

/-- `SegmentWorker._export_concat_fast`: the `try:` body followed by the
`finally:` block, whose `shutil.rmtree(temp_dir)` removes the working
directory and every file in it on every exit path.  The result pairs the
success flag with the files left in the temp directory after return. -/
def export_concat_fast (env : ConcatEnv) (segments : List Segment) :
    Bool × List TempFile :=
  let r := concat_body env segments
  (r.1, [])

/-- `SegmentWorker._export_concat_accurate`: identical temp-file lifecycle —
the `try:` body (with per-segment commands built via `build_command` instead
of stream-copy, irrelevant to the file bookkeeping) followed by the same
`finally:` cleanup. -/
def export_concat_accurate (env : ConcatEnv) (segments : List Segment) :
    Bool × List TempFile :=
  let r := concat_body env segments
  (r.1, [])

/-- The environment of the cleanup scenario: never cancelled, segment 3 of 5
(index 2) fails, every other stage would succeed. -/
def forcedFailEnv : ConcatEnv :=
  { cancelledBefore := fun _ => false
    segOk := fun i => i != 2
    concatOk := true }


/-- The list of speeds the tempo-stage claim quantifies over. -/
def speedSet : List ℚ := [1/2, 1, 10001/10000, 2, 3, 3/10, 5]

/-- The target aspect ratio the spec names for a recognized aspect string. -/
def specTargetAspect (ar : String) : ℚ := if ar = "16:9" then 16/9 else 9/16

/-! Helper lemmas (shared infrastructure for the claim theorems). -/

lemma mem_ite_list {α : Type} {P : Prop} [Decidable P] {l1 l2 : List α} {x : α}
    (h : x ∈ if P then l1 else l2) : x ∈ l1 ∨ x ∈ l2 := by
  split at h
  · exact Or.inl h
  · exact Or.inr h

lemma any_ite {α : Type} {P : Prop} [Decidable P] (l1 l2 : List α) (p : α → Bool) :
    (if P then l1 else l2).any p = if P then l1.any p else l2.any p :=
  apply_ite (fun l => List.any l p) P l1 l2

lemma atempoStages_half : atempoStages (1/2) = [1/2] := by
  norm_num [atempoStages, le_abs, abs_lt]

lemma atempoStages_one : atempoStages 1 = [] := by norm_num [atempoStages, abs_lt]

lemma atempoStages_near_one : atempoStages (10001/10000) = [] := by
  norm_num [atempoStages, abs_lt]

lemma atempoStages_two : atempoStages 2 = [2] := by norm_num [atempoStages, abs_lt, le_abs]

lemma atempoStages_three : atempoStages 3 = [2, 3/2] := by
  norm_num [atempoStages, atempoUp, abs_lt, le_abs]

lemma atempoStages_three_tenths : atempoStages (3/10) = [1/2, 3/5] := by
  norm_num [atempoStages, atempoDown, abs_lt, le_abs]

lemma atempoStages_five : atempoStages 5 = [2, 2, 5/4] := by
  norm_num [atempoStages, atempoUp, abs_lt, le_abs]

lemma build_color_filters_neutral : build_color_filters 0 1 1 0 0 0 0 = [] := by
  norm_num [build_color_filters, abs_lt, le_abs]

lemma speed_filters_fst (speed : ℚ) (h : ¬ (|speed - 1| < 1/100)) :
    (build_speed_filters speed).1 = [VFilter.setptsDiv speed] := by
  rw [build_speed_filters, if_neg h]

lemma speed_filters_snd (speed : ℚ) (h : ¬ (|speed - 1| < 1/100)) :
    (build_speed_filters speed).2 = (atempoStages speed).map AFilter.atempo := by
  rw [build_speed_filters, if_neg h]

lemma speed_fst_mem {speed : ℚ} {f : VFilter} (hf : f ∈ (build_speed_filters speed).1) :
    f = VFilter.setptsDiv speed := by
  rw [build_speed_filters, apply_ite Prod.fst] at hf
  rcases mem_ite_list hf with hf | hf
  · simp at hf
  · simpa using hf

lemma color_filters_mem {b c sa sh sd te ti : ℚ} {f : VFilter}
    (hf : f ∈ build_color_filters b c sa sh sd te ti) :
    isColorFilter f = true ∧ isCropFilter f = false := by
  simp only [build_color_filters, List.mem_append] at hf
  rcases hf with (hf | hf) | hf
  · rcases mem_ite_list hf with hf | hf
    · simp at hf
    · simp at hf
      subst hf
      exact ⟨rfl, rfl⟩
  · rcases mem_ite_list hf with hf | hf
    · rcases mem_ite_list hf with hf | hf
      · simp at hf
        subst hf
        exact ⟨rfl, rfl⟩
      · simp at hf
        subst hf
        exact ⟨rfl, rfl⟩
    · simp at hf
  · rcases mem_ite_list hf with hf | hf
    · rcases mem_ite_list hf with hf | hf
      · simp at hf
        subst hf
        exact ⟨rfl, rfl⟩
      · simp at hf
    · simp at hf

lemma aspect_filters_mem {ar : String} {w h : ℤ} {f : VFilter}
    (hf : f ∈ build_aspect_ratio_filters ar w h) :
    isCropFilter f = true ∧ isColorFilter f = false := by
  simp only [build_aspect_ratio_filters] at hf
  rcases mem_ite_list hf with hf | hf
  · rcases mem_ite_list hf with hf | hf
    · simp at hf
    · rcases mem_ite_list hf with hf | hf <;>
      · simp at hf
        subst hf
        exact ⟨rfl, rfl⟩
  · simp at hf

lemma neutral_vfl (w h : ℤ) (d : ℚ) :
    videoFiltersList [] 1 "none" w h 0 1 1 0 0 0 0 d = [] := by
  have h1 : ¬ ((1:ℚ)/100 ≤ |(1:ℚ) - 1|) := by norm_num
  have h2 : ("none":String) ≠ "" := by decide
  have h3 : ¬ (("none":String) = "16:9") := by decide
  have h4 : ¬ (("none":String) = "9:16") := by decide
  norm_num [videoFiltersList, if_neg h1, build_color_filters_neutral, h2, h3, h4]

lemma audio_one (d : ℚ) : audioFiltersList 1 d = [] := by
  norm_num [audioFiltersList, sub_self, abs_zero]

lemma vfl_no_crop_unknown {ar : String} (h1 : ar ≠ "16:9") (h2 : ar ≠ "9:16")
    (fs : List String) (sp d : ℚ) (w h : ℤ) (b c sa sh sd te ti : ℚ) :
    (videoFiltersList fs sp ar w h b c sa sh sd te ti d).any isCropFilter = false := by
  rw [List.any_eq_false]
  intro f hf
  simp only [videoFiltersList, List.mem_append] at hf
  rcases hf with ((hf | hf) | hf) | hf
  · rcases mem_ite_list hf with hf | hf
    · simp only [List.mem_append, List.mem_singleton] at hf
      rcases hf with rfl | hf
      · simp [isCropFilter]
      · rw [speed_fst_mem hf]
        simp [isCropFilter]
    · simp at hf
  · simp [(color_filters_mem hf).2]
  · rcases mem_ite_list hf with hf | hf
    · rw [if_neg h1, if_neg h2, sub_self, abs_zero] at hf
      norm_num at hf
    · simp at hf
  · rcases List.mem_map.mp hf with ⟨cs, -, rfl⟩
    simp [isCropFilter]

lemma pyInt_eq_floor {q : ℚ} (hq : 0 ≤ q) : pyInt q = ⌊q⌋ := if_pos hq

lemma build_aspect_eq (ar : String) (w h : ℤ) (hh : 0 < h)
    (har : ar = "16:9" ∨ ar = "9:16") :
    build_aspect_ratio_filters ar w h =
      if |(w:ℚ)/(h:ℚ) - specTargetAspect ar| < 1/100 then []
      else if specTargetAspect ar < (w:ℚ)/(h:ℚ) then
        [VFilter.crop (pyInt ((h:ℚ) * specTargetAspect ar)) h
          ((w - pyInt ((h:ℚ) * specTargetAspect ar)).fdiv 2) 0]
      else
        [VFilter.crop w (pyInt ((w:ℚ) / specTargetAspect ar)) 0
          ((h - pyInt ((w:ℚ) / specTargetAspect ar)).fdiv 2)] := by
  have hne : ¬ (("16:9":String) = "9:16") := by decide
  have hne2 : ¬ (("9:16":String) = "16:9") := by decide
  rcases har with rfl | rfl
  · simp [build_aspect_ratio_filters, specTargetAspect, hne, hh]
  · simp [build_aspect_ratio_filters, specTargetAspect, hne2, hh]

lemma aspect_nine_sixteen_eval :
    build_aspect_ratio_filters "9:16" 1920 1080 = [VFilter.crop 607 1080 656 0] := by
  have hne : ¬ (("9:16":String) = "16:9") := by decide
  have h3 : Int.fdiv 1313 2 = 656 := by decide
  norm_num [build_aspect_ratio_filters, pyInt, hne, h3, abs_lt, le_abs, Int.floor_eq_iff]

/-! The claim theorems. -/

/-- Claim C1, counterexample: at speed 1.0001 (a member of the claim's speed
set) the speed-filter builder emits no atempo stages, so the product of the
emitted stage ratios is the empty product 1.0, which differs from 1.0001 by
1e-4 — not within the claimed 1e-6. -/
theorem C1_counterexample :
    ¬ (|(atempoStages ((10001:ℚ)/10000)).prod - 10001/10000| ≤ 1/1000000) := by
  norm_num [atempoStages, abs_lt, abs_le, le_abs]

/-- Claim C1, amended: for every speed s in {0.5, 1.0, 1.0001, 2.0, 3.0, 0.3,
5.0}, every emitted atempo stage ratio lies in [0.5, 2.0]; when s differs
from 1.0 by at least 0.01 the product of the emitted stage ratios equals s
exactly (hence within 1e-6); when s is within 0.01 of 1.0 (the cases 1.0 and
1.0001) the builder emits no stages, so the product is the empty product
1.0. -/
theorem C1_amended (s : ℚ) (hs : s ∈ speedSet) :
    (∀ r ∈ atempoStages s, 1/2 ≤ r ∧ r ≤ 2) ∧
    (1/100 ≤ |s - 1| → (atempoStages s).prod = s) ∧
    (|s - 1| < 1/100 → atempoStages s = []) := by
  have e1 := atempoStages_half
  have e2 := atempoStages_one
  have e3 := atempoStages_near_one
  have e4 := atempoStages_two
  have e5 := atempoStages_three
  have e6 := atempoStages_three_tenths
  have e7 := atempoStages_five
  simp only [speedSet, List.mem_cons, List.not_mem_nil, or_false] at hs
  rcases hs with rfl | rfl | rfl | rfl | rfl | rfl | rfl
  · rw [e1]
    exact ⟨by intro r hr; simp at hr; subst hr; norm_num,
      fun _ => by norm_num, fun hlt => by norm_num [abs_lt] at hlt⟩
  · rw [e2]
    exact ⟨by simp, fun hge => by norm_num [le_abs] at hge, fun _ => rfl⟩
  · rw [e3]
    exact ⟨by simp, fun hge => by norm_num [le_abs] at hge, fun _ => rfl⟩
  · rw [e4]
    exact ⟨by intro r hr; simp at hr; subst hr; norm_num,
      fun _ => by norm_num, fun hlt => by norm_num [abs_lt] at hlt⟩
  · rw [e5]
    exact ⟨by intro r hr; simp at hr; rcases hr with rfl | rfl <;> norm_num,
      fun _ => by norm_num, fun hlt => by norm_num [abs_lt] at hlt⟩
  · rw [e6]
    exact ⟨by intro r hr; simp at hr; rcases hr with rfl | rfl <;> norm_num,
      fun _ => by norm_num, fun hlt => by norm_num [abs_lt] at hlt⟩
  · rw [e7]
    exact ⟨by intro r hr; simp at hr; rcases hr with rfl | rfl | rfl <;> norm_num,
      fun _ => by norm_num, fun hlt => by norm_num [abs_lt] at hlt⟩

/-- Witness for C1: the amended theorem applied at speed 3, whose emitted
stage ratios multiply back to exactly 3. -/
theorem C1_witness : (atempoStages (3:ℚ)).prod = 3 :=
  (C1_amended 3 (by norm_num [speedSet])).2.1 (by norm_num [le_abs])

/-- Claim C2: for every EditSpec whose speed differs from 1.0 by at least
0.01, the compiled video filter list begins with the trim-at-zero filter of
duration end − start combined with the timestamp reset, immediately followed
by setpts=PTS/speed; the audio filter list is exactly the corresponding
atrim-and-reset followed by the tempo stages; and for start=0, end=5,
speed=2 the audio filters contain exactly one tempo stage, of ratio 2.0. -/
theorem C2_thm (start_time end_time speed : ℚ) (filters : List String) (aspect_ratio : String)
    (input_width input_height : ℤ) (b c sa sh sd te ti : ℚ)
    (h : 1/100 ≤ |speed - 1|) :
    (∃ rest, videoFiltersList filters speed aspect_ratio input_width input_height
        b c sa sh sd te ti (end_time - start_time) =
      VFilter.trimSetpts 0 (end_time - start_time) :: VFilter.setptsDiv speed :: rest) ∧
    audioFiltersList speed (end_time - start_time) =
      AFilter.atrimSetpts 0 (end_time - start_time) ::
        (atempoStages speed).map AFilter.atempo ∧
    (audioFiltersList 2 (5 - 0)).filter isAtempo = [AFilter.atempo 2] := by
  have hg : ¬ (|speed - 1| < 1/100) := not_lt.mpr h
  refine ⟨?_, ?_, ?_⟩
  · simp only [videoFiltersList, if_pos h, speed_filters_fst speed hg]
    exact ⟨_, rfl⟩
  · simp only [audioFiltersList, if_pos h, speed_filters_snd speed hg]
    simp
  · have e : audioFiltersList 2 (5 - 0) = [AFilter.atrimSetpts 0 5, AFilter.atempo 2] := by
      norm_num [audioFiltersList, build_speed_filters, atempoStages, abs_lt, le_abs]
    rw [e]
    rfl

/-- Witness for C2: the theorem applied at speed 2 with start 0 and end 5. -/
theorem C2_witness :
    audioFiltersList 2 (5 - 0) =
      AFilter.atrimSetpts 0 (5 - 0) :: (atempoStages 2).map AFilter.atempo :=
  (C2_thm 0 5 2 [] "16:9" 1920 1080 0 1 1 0 0 0 0 (by norm_num [le_abs])).2.1

/-- Claim C3: at the exactly neutral color grade (brightness 0, contrast 1,
saturation 1, sharpness 0, shadows 0, temperature 0, tint 0) the color-filter
builder returns the empty list, and consequently the compiled video filter
list contains no color-related expression (no eq, unsharp, boxblur, or
colorchannelmixer filter), whatever the other parameters are. -/
theorem C3_thm :
    build_color_filters 0 1 1 0 0 0 0 = [] ∧
    ∀ (filters : List String) (speed : ℚ) (aspect_ratio : String)
      (input_width input_height : ℤ) (input_duration : ℚ),
      (videoFiltersList filters speed aspect_ratio input_width input_height
        0 1 1 0 0 0 0 input_duration).all (fun f => !(isColorFilter f)) = true := by
  refine ⟨build_color_filters_neutral, ?_⟩
  intro fs sp ar w h d
  rw [List.all_eq_true]
  intro f hf
  simp only [videoFiltersList, List.mem_append] at hf
  rcases hf with ((hf | hf) | hf) | hf
  · rcases mem_ite_list hf with hf | hf
    · simp only [List.mem_append, List.mem_singleton] at hf
      rcases hf with rfl | hf
      · rfl
      · rw [speed_fst_mem hf]
        rfl
    · simp at hf
  · rw [build_color_filters_neutral] at hf
    simp at hf
  · rcases mem_ite_list hf with hf | hf
    · rcases mem_ite_list hf with hf | hf
      · simp [(aspect_filters_mem hf).2]
      · simp at hf
    · simp at hf
  · rcases List.mem_map.mp hf with ⟨cs, -, rfl⟩
    rfl

/-- Claim C4: for positive source dimensions and a recognized target aspect
(16:9 or 9:16), a source aspect within 0.01 of the target emits no crop;
otherwise exactly one centered crop is emitted whose dimensions follow the
spec geometry (full height and width h·target rounded down, centered
horizontally, when the source is relatively wider; symmetrically when
relatively taller); in particular a 1920×1080 source targeting 9:16 crops to
607×1080 at horizontal offset 656 = (1920 − 607) // 2, with
|607 − 1080·9/16| ≤ 1 and 607 ≤ 1920. -/
theorem C4_thm (ar : String) (w h : ℤ) (hw : 0 < w) (hh : 0 < h)
    (har : ar = "16:9" ∨ ar = "9:16") :
    (|(w:ℚ)/(h:ℚ) - specTargetAspect ar| < 1/100 →
      build_aspect_ratio_filters ar w h = []) ∧
    (1/100 ≤ |(w:ℚ)/(h:ℚ) - specTargetAspect ar| →
      ∃ nw nh xo yo,
        build_aspect_ratio_filters ar w h = [VFilter.crop nw nh xo yo] ∧
        ((specTargetAspect ar < (w:ℚ)/(h:ℚ) ∧ nh = h ∧
            (nw:ℚ) ≤ (h:ℚ) * specTargetAspect ar ∧
            (h:ℚ) * specTargetAspect ar - 1 < (nw:ℚ) ∧
            xo = (w - nw).fdiv 2 ∧ yo = 0) ∨
          ((w:ℚ)/(h:ℚ) < specTargetAspect ar ∧ nw = w ∧
            (nh:ℚ) ≤ (w:ℚ) / specTargetAspect ar ∧
            (w:ℚ) / specTargetAspect ar - 1 < (nh:ℚ) ∧
            xo = 0 ∧ yo = (h - nh).fdiv 2))) ∧
    (build_aspect_ratio_filters "9:16" 1920 1080 = [VFilter.crop 607 1080 656 0] ∧
      (607:ℤ) ≤ 1920 ∧ Int.fdiv (1920 - 607) 2 = 656 ∧
      |(607:ℚ) - 1080 * (9/16)| ≤ 1) := by
  have hta : 0 < specTargetAspect ar := by
    have hne2 : ¬ (("9:16":String) = "16:9") := by decide
    rcases har with rfl | rfl <;> norm_num [specTargetAspect, hne2]
  refine ⟨?_, ?_, aspect_nine_sixteen_eval, by decide, by decide, by norm_num [abs_le]⟩
  · intro hlt
    rw [build_aspect_eq ar w h hh har, if_pos hlt]
  · intro hge
    have hne1 : ¬ (|(w:ℚ)/(h:ℚ) - specTargetAspect ar| < 1/100) := not_lt.mpr hge
    rw [build_aspect_eq ar w h hh har, if_neg hne1]
    by_cases hc : specTargetAspect ar < (w:ℚ)/(h:ℚ)
    · rw [if_pos hc]
      have h0 : (0:ℚ) ≤ (h:ℚ) * specTargetAspect ar := by
        have : (0:ℚ) ≤ (h:ℚ) := by exact_mod_cast hh.le
        exact mul_nonneg this hta.le
      refine ⟨_, h, _, 0, rfl, Or.inl ⟨hc, rfl, ?_, ?_, rfl, rfl⟩⟩
      · rw [pyInt_eq_floor h0]
        exact Int.floor_le _
      · rw [pyInt_eq_floor h0]
        exact Int.sub_one_lt_floor _
    · rw [if_neg hc]
      have hcalt : (w:ℚ)/(h:ℚ) < specTargetAspect ar := by
        rcases lt_or_eq_of_le (not_lt.mp hc) with hlt | heq
        · exact hlt
        · rw [heq, sub_self, abs_zero] at hge
          norm_num at hge
      have h0 : (0:ℚ) ≤ (w:ℚ) / specTargetAspect ar := by
        have : (0:ℚ) ≤ (w:ℚ) := by exact_mod_cast hw.le
        exact div_nonneg this hta.le
      refine ⟨w, _, 0, _, rfl, Or.inr ⟨hcalt, rfl, ?_, ?_, rfl, rfl⟩⟩
      · rw [pyInt_eq_floor h0]
        exact Int.floor_le _
      · rw [pyInt_eq_floor h0]
        exact Int.sub_one_lt_floor _

/-- Witness for C4: the theorem applied to a 1920×1080 source targeting
9:16, yielding the concrete 607×1080 centered crop. -/
theorem C4_witness :
    build_aspect_ratio_filters "9:16" 1920 1080 = [VFilter.crop 607 1080 656 0] ∧
    (607:ℤ) ≤ 1920 ∧ Int.fdiv (1920 - 607) 2 = 656 ∧
    |(607:ℚ) - 1080 * (9/16)| ≤ 1 :=
  (C4_thm "9:16" 1920 1080 (by decide) (by decide) (Or.inr rfl)).2.2

/-- Claim C5: the compiled command always carries the `-t` duration cap as
its seventh/eighth tokens, with value (end − start) + 0.5 exactly when the
speed differs from 1.0 by at least 0.01 and end − start otherwise; and a
command compiled with speed 1.0, aspect ratio "none", neutral color grade
and no custom filters contains no `-vf` and no `-af` filter-chain value. -/
theorem C5_thm (fp fi fo : String) (st et : ℚ) (fs : List String)
    (ep : Option EncodingProfile) (sp : ℚ) (ar : String) (w h : ℤ)
    (b c sa sh sd te ti : ℚ) (fp2 fi2 fo2 : String) (st2 et2 : ℚ)
    (ep2 : Option EncodingProfile) (w2 h2 : ℤ) :
    (∃ rest, build_command fp fi fo st et fs ep sp ar w h b c sa sh sd te ti =
      [Tok.arg fp, Tok.arg "-y", Tok.arg "-i", Tok.arg fi, Tok.arg "-ss", Tok.num st,
        Tok.arg "-t",
        Tok.num (if 1/100 ≤ |sp - 1| then (et - st) + 1/2 else et - st)] ++ rest) ∧
    cmdHasVf (build_command fp2 fi2 fo2 st2 et2 [] ep2 1 "none" w2 h2 0 1 1 0 0 0 0) = false ∧
    cmdHasAf (build_command fp2 fi2 fo2 st2 et2 [] ep2 1 "none" w2 h2 0 1 1 0 0 0 0) = false := by
  have h1 : ¬ ((1:ℚ)/100 ≤ |(1:ℚ) - 1|) := by norm_num
  refine ⟨?_, ?_, ?_⟩
  · by_cases hsp : (1:ℚ)/100 ≤ |sp - 1|
    · simp only [build_command, if_pos hsp]
      exact ⟨_, rfl⟩
    · simp only [build_command, if_neg hsp]
      exact ⟨_, rfl⟩
  · simp only [build_command, neutral_vfl, audio_one, if_neg h1]
    cases ep2 <;> simp [cmdHasVf]
  · simp only [build_command, neutral_vfl, audio_one, if_neg h1]
    cases ep2 <;> simp [cmdHasAf]

/-- Claim C6: both concat exporters remove the per-call temporary working
directory and every file in it on every exit path (the `finally:` cleanup),
so the residual file list at return is always empty; in the scenario where
segment 3 of 5 fails during a concat-fast export, the body stops holding the
two already-extracted segment files, and the call still returns with zero
residual files. -/
theorem C6_thm :
    (∀ (env : ConcatEnv) (segments : List Segment),
      (export_concat_fast env segments).2 = [] ∧
      (export_concat_accurate env segments).2 = []) ∧
    concat_body forcedFailEnv (List.replicate 5 {}) =
      (false, [TempFile.segment 0, TempFile.segment 1]) ∧
    export_concat_fast forcedFailEnv (List.replicate 5 {}) = (false, []) :=
  ⟨fun _ _ => ⟨rfl, rfl⟩, by decide, by decide⟩

/-- Claim C7, counterexample: the retained diagnostic-line list of the
output-reading loop is not bounded by any fixed constant — for every bound c
a stream of c + 1 lines containing "error" leaves c + 1 retained lines. -/
theorem C7_counterexample :
    ¬ ∃ c : ℕ, ∀ lines : List String, (read_output_error_lines lines).length ≤ c := by
  rintro ⟨c, hc⟩
  have h := hc (List.replicate (c + 1) "error")
  have hd : isDiagnosticLine "error" = true := by decide
  rw [read_output_error_lines] at h
  rw [List.filter_eq_self.mpr (fun a ha => by rw [List.eq_of_mem_replicate ha]; exact hd)] at h
  rw [List.length_replicate] at h
  omega

/-- Claim C7, amended: the output-reading loop retains every diagnostic line
without bound; the bounded collection is the reported tail — the post-mortem
log surfaces only the last five retained lines, so its size never exceeds
five no matter how many matching lines the subprocess emits. -/
theorem C7_amended (lines : List String) : (reported_error_tail lines).length ≤ 5 := by
  simp only [reported_error_tail]
  rw [List.length_drop]
  omega

/-- Claim C8: saving a project and reloading the saved record yields exactly
the original project — same input file, output directory, export mode and
method, project name, and segment list with every field preserved. -/
theorem C8_round_trip (p : Project) :
    Project.load_from_file (Project.save_to_file p) = some p := by
  have hseg : Segment.from_dict ∘ Segment.to_dict = id := funext fun _ => rfl
  cases p with
  | mk fi od segs em ex pn =>
    simp [Project.save_to_file, Project.load_from_file, List.map_map, hseg]

/-- Claim C9: split export submits only the enabled segments — the reported
total is the number of enabled segments, the outputs are the same as when
the disabled segments are removed beforehand, and when every job succeeds
the number of output files equals the total; a 5-segment project with one
segment disabled attempts 4 jobs and yields 4 outputs with total 4. -/
theorem C9_thm (segments : List Segment) (env : ℕ → Bool) :
    (export_segments_fast env segments).2 = (segments.filter fun s => s.enabled).length ∧
    export_segments_fast env segments =
      export_segments_fast env (segments.filter fun s => s.enabled) ∧
    ((∀ i, env i = true) →
      (export_segments_fast env segments).1.length = (export_segments_fast env segments).2) ∧
    ((export_segments_fast (fun _ => true)
        [{}, { enabled := false }, {}, {}, {}]).1.length = 4 ∧
      (export_segments_fast (fun _ => true)
        [{}, { enabled := false }, {}, {}, {}]).2 = 4) := by
  refine ⟨rfl, ?_, ?_, by decide, by decide⟩
  · simp [export_segments_fast, List.filter_filter]
  · intro henv
    have hlen : ∀ (l : List (ℕ × Segment)),
        (l.filterMap fun p => if env p.1 then some (output_filename_tag p.1 p.2) else none).length
          = l.length := by
      intro l
      induction l with
      | nil => rfl
      | cons a t ih => simp [List.filterMap_cons, henv, ih]
    simp only [export_segments_fast]
    rw [hlen]
    exact List.enum_length

/-- Witness for C9: the theorem applied to the 5-segment project with one
disabled segment under an all-success environment. -/
theorem C9_witness :
    (export_segments_fast (fun _ => true)
        ([{}, { enabled := false }, {}, {}, {}] : List Segment)).1.length =
      (export_segments_fast (fun _ => true)
        ([{}, { enabled := false }, {}, {}, {}] : List Segment)).2 :=
  (C9_thm [{}, { enabled := false }, {}, {}, {}] (fun _ => true)).2.2.1 (fun _ => rfl)

/-- Claim C10: for every aspect-ratio string other than "16:9" and "9:16"
("none", the empty string, or anything else) the compiled command contains
no crop filter, for all source dimensions and other parameters — the
unrecognized value is silently treated as no reframe. -/
theorem C10_thm (ar : String) (h1 : ar ≠ "16:9") (h2 : ar ≠ "9:16")
    (fp fi fo : String) (st et : ℚ) (fs : List String) (ep : Option EncodingProfile)
    (sp : ℚ) (w h : ℤ) (b c sa sh sd te ti : ℚ) :
    cmdHasCrop (build_command fp fi fo st et fs ep sp ar w h b c sa sh sd te ti) = false := by
  cases ep <;>
  · simp only [cmdHasCrop, build_command, List.any_append, any_ite, List.any_cons,
      List.any_nil]
    split_ifs <;> simp [vfl_no_crop_unknown h1 h2]

/-- Witness for C10: the theorem applied to the aspect string "none". -/
theorem C10_witness :
    cmdHasCrop (build_command "ffmpeg" "in.mp4" "out.mp4" 0 10 [] none 1 "none" 1920 1080
      0 1 1 0 0 0 0) = false :=
  C10_thm "none" (by decide) (by decide) "ffmpeg" "in.mp4" "out.mp4" 0 10 [] none 1 1920 1080
    0 1 1 0 0 0 0

end VideoCutter
